import Mathlib

/-!
RustyFlow IoT telemetry pipeline — shallow embedding and verification

Shallow embedding of the telemetry pipeline of the `rustyflow-iot`
repository: the edge-agent mock sensors (`edge-agent/src/sensors.rs`),
the message handler of the MQTT gateway (`mqtt-gateway/src/main.rs`) and the
api-server sensor routes (`api-server/src/routes/sensors.rs`).
Machine floats of the source are modelled as exact rationals (`ℚ`);
JSON values (`serde_json::Value`) as an explicit JSON AST; effectful
library calls (Redis commands, HTTP, UTF-8/JSON decoding) as explicit
outcome parameters or store-passing functions mirroring the control
flow of the source.
-/

namespace RustyFlow

/-- JSON value AST, modelling `serde_json::Value`.  Numbers are modelled
as exact rationals. -/
inductive Json where
  | null : Json
  | jbool : Bool → Json
  | jnum : ℚ → Json
  | jstr : String → Json
  | jarr : List Json → Json
  | jobj : List (String × Json) → Json

/-- Projection used by the decoders: a JSON string value. -/
def Json.asStr : Json → Option String
  | .jstr s => some s
  | _ => none

/-- Projection used by the decoders: a JSON number value. -/
def Json.asNum : Json → Option ℚ
  | .jnum q => some q
  | _ => none

/-- Field access on a JSON object, modelling how serde reads a named
field of a JSON map (first occurrence). -/
def Json.getField (j : Json) (name : String) : Option Json :=
  match j with
  | .jobj fields => (fields.find? (fun f => f.1 = name)).map (fun f => f.2)
  | _ => none

/-- Model of `shared_types::sensor::SensorReading`.  `sensor_id : Uuid` and
`timestamp : DateTime<Utc>` are modelled as strings (the uuid string and
the RFC3339 rendering); `metadata : Option<serde_json::Value>` as
`Option Json`. -/
structure SensorReading where
  sensor_id : String
  value : String
  timestamp : String
  is_valid : Bool
  metadata : Option Json

/-- The canonical sensor record.  Models the two field-identical Rust
structs `mqtt-gateway/src/main.rs::SensorData` and
`api-server/src/routes/sensors.rs::SensorData`
(`{device_id, sensor_type, value: f64, unit, timestamp, metadata:
Option<serde_json::Value>}`); `value : f64` is modelled as an exact
rational.  The two structs differ only in their serde serialization
attributes, reflected below by the two serializers
`SensorData.toJsonGateway` and `SensorData.toJsonServer`. -/
structure SensorData where
  device_id : String
  sensor_type : String
  value : ℚ
  unit : String
  timestamp : String
  metadata : Option Json

/-- Serialization of the gateway struct (`mqtt-gateway/src/main.rs`,
lines 93–102): the `metadata` field carries
`#[serde(skip_serializing_if = "Option::is_none")]`, so a `None`
metadata omits the field entirely. -/
def SensorData.toJsonGateway (r : SensorData) : Json :=
  .jobj ([("device_id", .jstr r.device_id),
          ("sensor_type", .jstr r.sensor_type),
          ("value", .jnum r.value),
          ("unit", .jstr r.unit),
          ("timestamp", .jstr r.timestamp)] ++
         (match r.metadata with
          | none => []
          | some m => [("metadata", m)]))

/-- Serialization of the api-server struct
(`api-server/src/routes/sensors.rs`, lines 16–24): no skip attribute,
so a `None` metadata serializes as JSON `null`. -/
def SensorData.toJsonServer (r : SensorData) : Json :=
  .jobj [("device_id", .jstr r.device_id),
         ("sensor_type", .jstr r.sensor_type),
         ("value", .jnum r.value),
         ("unit", .jstr r.unit),
         ("timestamp", .jstr r.timestamp),
         ("metadata", r.metadata.getD Json.null)]

/-- Deserialization of either struct via the derived serde
`Deserialize` impl: required fields must be present with the right JSON
type; the `Option<serde_json::Value>` field `metadata` follows the serde
`Option` semantics — a missing field and an explicit JSON `null` both
deserialize to `None`. -/
def SensorData.fromJson (j : Json) : Option SensorData := do
  let d ← (← j.getField "device_id").asStr
  let st ← (← j.getField "sensor_type").asStr
  let v ← (← j.getField "value").asNum
  let u ← (← j.getField "unit").asStr
  let ts ← (← j.getField "timestamp").asStr
  let md := match j.getField "metadata" with
    | none => none
    | some .null => none
    | some m => some m
  pure { device_id := d, sensor_type := st, value := v, unit := u,
         timestamp := ts, metadata := md }

/-! ## Edge agent: mock sensors (`edge-agent/src/sensors.rs`)

Randomness (`rng.gen_range`, `rng.gen_bool`) is modelled by passing the
drawn value in as an argument; `Utc::now()` by passing the call time in
as a string.  Rust `f64` arithmetic on the sensor state is modelled
over `ℚ`. -/

namespace EdgeAgent

/-- Rust `f64::clamp(self, lo, hi)`: `lo` if below, `hi` if above, the
value otherwise. -/
def clampQ (x lo hi : ℚ) : ℚ :=
  if x < lo then lo else if x > hi then hi else x

/-- Model of the Rust fixed-precision formatting of the sensor values
(the `format!` calls with 2 resp. 1 decimal places): round `x` to `p`
decimal places and render it.
(Tie-breaking of the exact binary `f64` rendering is immaterial to the
claims; only the fact that a value in range renders from a number in
range is used.) -/
def fmtFixed (p : ℕ) (q : ℚ) : String :=
  let n : ℤ := round (q * (10 : ℚ) ^ p)
  let a : ℕ := n.natAbs
  let ip : ℕ := a / 10 ^ p
  let fp : ℕ := a % 10 ^ p
  let fs : String := toString fp
  let pad : String := String.mk (List.replicate (p - fs.length) '0')
  (if n < 0 then "-" else "") ++ toString ip ++
    (if p = 0 then "" else "." ++ pad ++ fs)

/-- Struct `SensorData` of `edge-agent/src/sensors.rs`: one reading together with
its sensor type and unit. -/
structure SensorData where
  reading : SensorReading
  sensor_type : String
  unit : String

/-- Struct `TemperatureSensor`: owns a stable `sensor_id` (a `Uuid::new_v4()`
drawn at construction, modelled as a string parameter) and the running
value `last_value`. -/
structure TemperatureSensor where
  sensor_id : String
  last_value : ℚ

/-- Constructor `TemperatureSensor::new()`: fresh id, initial value 22.0. -/
def TemperatureSensor.new (sid : String) : TemperatureSensor :=
  { sensor_id := sid, last_value := 22 }

/-- Method `TemperatureSensor::read()`: draw `change ∈ (-2,2)` (passed in),
update `last_value := clamp(last_value + change, 18, 30)`, emit the
reading formatted to 2 decimals. -/
def TemperatureSensor.read (s : TemperatureSensor) (change : ℚ)
    (now : String) : SensorData × TemperatureSensor :=
  let lv := clampQ (s.last_value + change) 18 30
  ({ reading := { sensor_id := s.sensor_id, value := fmtFixed 2 lv,
                  timestamp := now, is_valid := true, metadata := none },
     sensor_type := "temperature", unit := "celsius" },
   { s with last_value := lv })

/-- Struct `HumiditySensor`: stable `sensor_id`, running `last_value`. -/
structure HumiditySensor where
  sensor_id : String
  last_value : ℚ

/-- Constructor `HumiditySensor::new()`: fresh id, initial value 55.0. -/
def HumiditySensor.new (sid : String) : HumiditySensor :=
  { sensor_id := sid, last_value := 55 }

/-- Method `HumiditySensor::read()`: draw `change ∈ (-5,5)` (passed in),
update `last_value := clamp(last_value + change, 30, 80)`, emit the
reading formatted to 1 decimal. -/
def HumiditySensor.read (s : HumiditySensor) (change : ℚ)
    (now : String) : SensorData × HumiditySensor :=
  let lv := clampQ (s.last_value + change) 30 80
  ({ reading := { sensor_id := s.sensor_id, value := fmtFixed 1 lv,
                  timestamp := now, is_valid := true, metadata := none },
     sensor_type := "humidity", unit := "percent" },
   { s with last_value := lv })

/-- Struct `MotionSensor`: stable `sensor_id`, no running state. -/
structure MotionSensor where
  sensor_id : String

/-- Constructor `MotionSensor::new()`: fresh id. -/
def MotionSensor.new (sid : String) : MotionSensor :=
  { sensor_id := sid }

/-- Method `MotionSensor::read()`: `motion_detected = rng.gen_bool(0.2)`
(passed in); value `"1"` with the `motion_detected` metadata object
when detected, `"0"` with no metadata otherwise. -/
def MotionSensor.read (s : MotionSensor) (motion_detected : Bool)
    (now : String) : SensorData :=
  { reading := { sensor_id := s.sensor_id,
                 value := if motion_detected then "1" else "0",
                 timestamp := now, is_valid := true,
                 metadata := if motion_detected
                   then some (.jobj [("event", .jstr "motion_detected")])
                   else none },
    sensor_type := "motion", unit := "boolean" }

/-- Struct `SensorController`: the three sensors. -/
structure SensorController where
  temperature : TemperatureSensor
  humidity : HumiditySensor
  motion : MotionSensor

/-- Constructor `SensorController::new()`: three fresh sensors (the fresh uuids are
passed in). -/
def SensorController.new (tid hid mid : String) : SensorController :=
  { temperature := TemperatureSensor.new tid,
    humidity := HumiditySensor.new hid,
    motion := MotionSensor.new mid }

/-- One random draw per `read_all()` call: the temperature change, the
humidity change, the motion coin, and the call time. -/
structure Tick where
  dTemp : ℚ
  dHum : ℚ
  detected : Bool
  now : String

/-- Method `SensorController::read_all()`: one read per sensor, in the fixed
order temperature, humidity, motion; returns the vector of readings
and the mutated controller. -/
def SensorController.read_all (c : SensorController) (t : Tick) :
    List SensorData × SensorController :=
  let (tr, temp) := c.temperature.read t.dTemp t.now
  let (hr, hum) := c.humidity.read t.dHum t.now
  let mr := c.motion.read t.detected t.now
  ([tr, hr, mr], { c with temperature := temp, humidity := hum })

/-- A sequence of `read_all()` calls: the list of per-call outputs. -/
def SensorController.run (c : SensorController) : List Tick → List (List SensorData)
  | [] => []
  | t :: ts =>
    let (out, c') := c.read_all t
    out :: c'.run ts

end EdgeAgent

/-! ## MQTT gateway (`mqtt-gateway/src/main.rs`) -/

namespace Gateway

/-- Model of `shared_types::messages::MqttMessage`: the transport envelope.
`device_id : Uuid` and `timestamp : DateTime<Utc>` are modelled as
strings. -/
structure MqttMessage where
  message_type : String
  payload : Json
  timestamp : String
  device_id : String
  qos : ℕ

/-- Numeric value of a digit character. -/
def digitVal (c : Char) : ℕ := c.toNat - 48

/-- Value of a digit string read left to right. -/
def digitsVal (ds : List Char) : ℕ :=
  ds.foldl (fun acc c => acc * 10 + digitVal c) 0

/-- Exponent suffix of a float literal: empty means exponent 0;
otherwise `e`/`E`, an optional sign, and at least one digit consuming
the rest of the input. -/
def parseExpPart : List Char → Option ℤ
  | [] => some 0
  | c :: r =>
    if c = 'e' ∨ c = 'E' then
      let (eneg, r1) : Bool × List Char :=
        match r with
        | '+' :: r2 => (false, r2)
        | '-' :: r2 => (true, r2)
        | _ => (false, r)
      let ed := r1.takeWhile Char.isDigit
      let rest := r1.dropWhile Char.isDigit
      if ed.isEmpty ∨ ¬ rest.isEmpty then none
      else some (if eneg then -Int.ofNat (digitsVal ed)
                 else Int.ofNat (digitsVal ed))
    else none

/-- The rational value of a parsed float literal: sign flag,
integer-part digits, fraction digits, decimal exponent.  The mantissa
is the value of the concatenated digit string over `10 ^ |fp|`, and the
exponent scales numerator or denominator by a power of ten, all built
from kernel-computable primitives. -/
def decValue (neg : Bool) (ip fp : List Char) (e : ℤ) : ℚ :=
  let m : ℕ := digitsVal (ip ++ fp)
  let n : ℕ := if 0 ≤ e then m * Nat.pow 10 e.toNat else m
  let d : ℕ :=
    if 0 ≤ e then Nat.pow 10 fp.length
    else Nat.pow 10 fp.length * Nat.pow 10 (-e).toNat
  mkRat (if neg then -Int.ofNat n else Int.ofNat n) d

/-- Model of Rust `str::parse::<f64>()` on the finite decimal grammar
(optional sign, digits with an optional decimal point — at least one
digit — and an optional exponent), exact over `ℚ`.  The special forms
`inf`/`NaN`, which no claim exercises, are outside the model and
return `none`. -/
def parseRat (s : String) : Option ℚ :=
  let l := s.data
  let (neg, l1) : Bool × List Char :=
    match l with
    | '+' :: r => (false, r)
    | '-' :: r => (true, r)
    | _ => (false, l)
  let ip := l1.takeWhile Char.isDigit
  let l2 := l1.dropWhile Char.isDigit
  match l2 with
  | '.' :: l3 =>
    let fp := l3.takeWhile Char.isDigit
    let l4 := l3.dropWhile Char.isDigit
    if ip.isEmpty && fp.isEmpty then none
    else (parseExpPart l4).map (fun e => decValue neg ip fp e)
  | _ =>
    if ip.isEmpty then none
    else (parseExpPart l2).map (fun e => decValue neg ip [] e)

/-- The characters of the trailing `'/'`-separated segment. -/
def lastSegAux : List Char → List Char → List Char
  | [], acc => acc.reverse
  | '/' :: rest, _ => lastSegAux rest []
  | c :: rest, acc => lastSegAux rest (c :: acc)

/-- Embedding of `topic.split('/').last().unwrap_or("unknown")`: the trailing topic
segment.  `split('/')` always yields at least one (possibly empty)
segment, so the `"unknown"` default of the source is unreachable and
the result is the text after the last separator. -/
def topicSensorType (topic : String) : String :=
  String.mk (lastSegAux topic.data [])

/-- The success path of `handle_message` (lines 137–159): given the
decoded envelope and the decoded reading, build the canonical record —
`sensor_type` from the trailing topic segment, `value` parsed from the
reading with a 0.0 fallback, `unit` from the fixed kind→unit table,
`device_id` from the envelope, `timestamp` re-rendered to RFC3339
(modelled as the carried string), `metadata` passed through. -/
def buildSensorData (topic : String) (msg : MqttMessage)
    (reading : SensorReading) : SensorData :=
  let sensor_type := topicSensorType topic
  let value := (parseRat reading.value).getD 0
  let unit :=
    match sensor_type with
    | "temperature" => "°C"
    | "humidity" => "%"
    | "motion" => "bool"
    | _ => ""
  { device_id := msg.device_id, sensor_type := sensor_type,
    value := value, unit := unit, timestamp := reading.timestamp,
    metadata := reading.metadata }

/-- Embedding of `handle_message` (lines 117–189), with the library decoders passed
in as functions: UTF-8 decoding of the raw payload bytes, JSON decoding
of an `MqttMessage`, and JSON decoding of a `SensorReading` from the
envelope payload.  The result is the list of HTTP forward calls the
handler performs (each built record is POSTed exactly once, whatever
the response); every early return in the source produces no forward
and leaves the receive loop running, and no branch panics — the
embedding is a total function into the forward list. -/
def handle_message (utf8Dec : List ℕ → Option String)
    (msgDec : String → Option MqttMessage)
    (readingDec : Json → Option SensorReading)
    (topic : String) (payload : List ℕ) : List SensorData :=
  match utf8Dec payload with
  | none => []
  | some payload_str =>
    match msgDec payload_str with
    | none => []
    | some msg =>
      match readingDec msg.payload with
      | none => []
      | some reading => [buildSensorData topic msg reading]

end Gateway

/-! ## API server sensor routes (`api-server/src/routes/sensors.rs`)

The handlers run against `AppState.redis : Option<ConnectionManager>`,
fixed at startup.  The Redis string keyspace is modelled as an
association list of `(key, value, ttl)` entries; serialized values are
kept at the JSON AST level (the JSON text printer/parser pair is
assumed faithful).  Fallible effects — serialization outcome, the
`SET EX` transport outcome, per-key `GET` outcomes — are passed in as
parameters so that each error branch of the source is reachable in the
model. -/

namespace ApiServer

/-- The axum status codes this module returns. -/
inductive StatusCode where
  | ok
  | badRequest
  | internalServerError
  | serviceUnavailable
  deriving DecidableEq

/-- Modelled from the Redis `SET key value EX ttl` documented
semantics (the Redis server is external to this repository): the
string keyspace, at most one live entry per key. -/
def RedisState := List (String × Json × ℕ)

/-- Command `SET key value EX ttl`: upsert — the new entry replaces any prior
entry at the same key and carries the fresh TTL. -/
def setEx (st : RedisState) (k : String) (v : Json) (ttl : ℕ) : RedisState :=
  (k, v, ttl) :: st.filter (fun e => e.1 ≠ k)

/-- The live entry at a key, with its TTL. -/
def lookupKey (st : RedisState) (k : String) : Option (Json × ℕ) :=
  (st.find? (fun e => e.1 = k)).map (fun e => e.2)

/-- Number of entries stored at a key. -/
def countKey (st : RedisState) (k : String) : ℕ :=
  st.countP (fun e => e.1 = k)

/-- The Redis key for a record:
`format!("\x7b\x7d\x7b\x7d:\x7b\x7d", REDIS_KEY_PREFIX, data.device_id, data.sensor_type)`
with the prefix constant `"sensor:"`. -/
def sensorKey (data : SensorData) : String :=
  "sensor:" ++ data.device_id ++ ":" ++ data.sensor_type

/-- Handler `add_sensor_data` (lines 106–139).  `redis` is the startup-chosen
backend with its current keyspace; `ser` is the
`serde_json::to_string(&data)` outcome; `writeFails` the `SET EX`
transport outcome.  Returns the handler result (`Ok(status)` or
`Err(status)`) and the keyspace afterwards:
with Redis present — serialization failure ⇒ `Err(BAD_REQUEST)`,
write failure ⇒ `Err(INTERNAL_SERVER_ERROR)`, otherwise store under
`sensorKey` with TTL 3600 and return `Ok(OK)`;
with Redis absent ⇒ `Err(SERVICE_UNAVAILABLE)`, nothing stored. -/
def add_sensor_data (redis : Option RedisState)
    (ser : SensorData → Except String Json) (writeFails : Bool)
    (data : SensorData) : Except StatusCode StatusCode × Option RedisState :=
  match redis with
  | some st =>
    match ser data with
    | .ok json =>
      if writeFails then (.error .internalServerError, some st)
      else (.ok .ok, some (setEx st (sensorKey data) json 3600))
    | .error _ => (.error .badRequest, some st)
  | none => (.error .serviceUnavailable, none)

/-- The nominal write path of `add_sensor_data`: serialization succeeds
(it is total on the model) and the `SET EX` lands. -/
def writeRemote (st : RedisState) (data : SensorData) : RedisState :=
  setEx st (sensorKey data) data.toJsonServer 3600

/-- The fetch loop of `get_all_sensors_from_redis` (lines 78–83) over
an already-scanned key list: `conn.get(&key).await?` — a failed fetch
propagates out of the whole loop via `?`; a fetched value that does not
deserialize as `SensorData` is skipped. -/
def fetchLoop (fetch : String → Except String Json) :
    List String → Except String (List SensorData)
  | [] => .ok []
  | k :: ks =>
    match fetch k with
    | .error e => .error e
    | .ok j =>
      match fetchLoop fetch ks with
      | .error e => .error e
      | .ok rest =>
        .ok (match SensorData.fromJson j with
             | some s => s :: rest
             | none => rest)

/-- Function `get_all_sensors_from_redis` (lines 69–86): scan the keys matching
`sensor:*` (the scan outcome `keysOutcome` is passed in, `?` on
failure), then run the fetch loop. -/
def get_all_sensors_from_redis (keysOutcome : Except String (List String))
    (fetch : String → Except String Json) : Except String (List SensorData) :=
  match keysOutcome with
  | .error e => .error e
  | .ok keys => fetchLoop fetch keys

/-- Handler `list_sensors` (lines 49–66): with Redis present, return the scan
result on success and the empty list on any error; with Redis absent,
return the empty list.  The handler never returns an error status. -/
def list_sensors (redisPresent : Bool)
    (keysOutcome : Except String (List String))
    (fetch : String → Except String Json) : List SensorData :=
  if redisPresent then
    match get_all_sensors_from_redis keysOutcome fetch with
    | .ok sensors => sensors
    | .error _ => []
  else []

end ApiServer

/-! ## Sample records shared by the concrete scenarios -/

/-- A canonical temperature record, as the gateway scenario produces
it. -/
def tempRecord : SensorData :=
  { device_id := "edge-01", sensor_type := "temperature",
    value := mkRat 241 10, unit := "°C",
    timestamp := "2024-01-20T10:30:00Z", metadata := none }

/-- A canonical humidity record for the same device. -/
def humRecord : SensorData :=
  { device_id := "edge-01", sensor_type := "humidity",
    value := mkRat 55 1, unit := "%",
    timestamp := "2024-01-20T10:30:00Z", metadata := none }

/-- Record `tempRecord` with metadata explicitly the JSON `null` value
(Rust `Some(Value::Null)`). -/
def nullMetaRecord : SensorData :=
  { tempRecord with metadata := some Json.null }

/-- A fetch function for the C3 scenario: the temperature key holds a
decodable record; fetching any other key fails with a transport
error. -/
def exFetch : String → Except String Json := fun k =>
  if k = "sensor:edge-01:temperature" then .ok tempRecord.toJsonServer
  else .error "io error"

namespace Gateway

/-- The envelope of the C5 scenario: device `edge-01` (uuids are
modelled as opaque strings), kind `temperature`, the reading as opaque
payload. -/
def exEnvelope : MqttMessage :=
  { message_type := "temperature_reading",
    payload := .jobj [("sensor_id", .jstr "7d44…"), ("value", .jstr "24.10"),
                      ("timestamp", .jstr "2024-01-20T10:30:00Z"),
                      ("is_valid", .jbool true)],
    timestamp := "2024-01-20T10:30:00Z",
    device_id := "edge-01", qos := 0 }

/-- The reading of the C5 scenario: textual value `"24.10"`. -/
def exReading : SensorReading :=
  { sensor_id := "7d44…", value := "24.10",
    timestamp := "2024-01-20T10:30:00Z", is_valid := true,
    metadata := none }

end Gateway

/-! ## Claims about the edge-agent sensors -/

namespace EdgeAgent

/-- Clamping into a nonempty interval always lands in the interval. -/
theorem clampQ_mem (x lo hi : ℚ) (h : lo ≤ hi) :
    lo ≤ clampQ x lo hi ∧ clampQ x lo hi ≤ hi := by
  unfold clampQ
  split_ifs <;> constructor <;> linarith

/-- Shape and bounds of every `read_all()` output, from any controller
state. -/
theorem run_mem_shape (ticks : List Tick) :
    ∀ (c : SensorController) (out : List SensorData),
      out ∈ c.run ticks →
      out.length = 3 ∧
      out.map (fun d => d.sensor_type) = ["temperature", "humidity", "motion"] ∧
      ∃ qt qh mv, (18 ≤ qt ∧ qt ≤ 30) ∧ (30 ≤ qh ∧ qh ≤ 80) ∧
        out.map (fun d => d.reading.value) = [fmtFixed 2 qt, fmtFixed 1 qh, mv] := by
  induction ticks with
  | nil => intro c out h; simp [SensorController.run] at h
  | cons t ts ih =>
    intro c out h
    rw [SensorController.run] at h
    rcases List.mem_cons.mp h with h1 | h2
    · subst h1
      refine ⟨rfl, rfl, clampQ (c.temperature.last_value + t.dTemp) 18 30,
        clampQ (c.humidity.last_value + t.dHum) 30 80,
        (if t.detected then "1" else "0"), ?_, ?_, rfl⟩
      · exact clampQ_mem _ 18 30 (by norm_num)
      · exact clampQ_mem _ 30 80 (by norm_num)
    · exact ih _ _ h2

end EdgeAgent

/-- Claim C4: starting from a freshly constructed `SensorController`,
every `read_all()` call in an arbitrarily long sequence returns exactly
3 readings, one per kind in the order temperature, humidity, motion,
and the temperature value (rendered to 2 decimals) comes from a number
in [18,30] and the humidity value (1 decimal) from a number in
[30,80]. -/
theorem read_all_three_kinds_in_bounds
    (tid hid mid : String) (ticks : List EdgeAgent.Tick)
    (out : List EdgeAgent.SensorData)
    (h : out ∈ (EdgeAgent.SensorController.new tid hid mid).run ticks) :
    out.length = 3 ∧
    out.map (fun d => d.sensor_type) = ["temperature", "humidity", "motion"] ∧
    ∃ qt qh mv, (18 ≤ qt ∧ qt ≤ 30) ∧ (30 ≤ qh ∧ qh ≤ 80) ∧
      out.map (fun d => d.reading.value)
        = [EdgeAgent.fmtFixed 2 qt, EdgeAgent.fmtFixed 1 qh, mv] :=
  EdgeAgent.run_mem_shape ticks _ out h

/-- Witness for C4: one concrete tick on a fresh controller. -/
theorem read_all_three_kinds_in_bounds_witness :
    let out := ((EdgeAgent.SensorController.new "t-id" "h-id" "m-id").read_all
      { dTemp := 0, dHum := 0, detected := false, now := "2024-01-20T10:30:00Z" }).1
    out.length = 3 ∧
    out.map (fun d => d.sensor_type) = ["temperature", "humidity", "motion"] ∧
    ∃ qt qh mv, (18 ≤ qt ∧ qt ≤ 30) ∧ (30 ≤ qh ∧ qh ≤ 80) ∧
      out.map (fun d => d.reading.value)
        = [EdgeAgent.fmtFixed 2 qt, EdgeAgent.fmtFixed 1 qh, mv] :=
  read_all_three_kinds_in_bounds "t-id" "h-id" "m-id"
    [{ dTemp := 0, dHum := 0, detected := false, now := "2024-01-20T10:30:00Z" }]
    _ (List.Mem.head _)

/-- Claim C8: a motion reading has metadata exactly when motion was
detected, and its value is `"1"` when metadata is present and `"0"`
when it is absent. -/
theorem motion_value_matches_metadata (sid now : String) (detected : Bool) :
    ((EdgeAgent.MotionSensor.new sid).read detected now).reading.value
      = (if ((((EdgeAgent.MotionSensor.new sid).read detected
               now).reading.metadata).isSome)
         then "1" else "0") ∧
    ((((EdgeAgent.MotionSensor.new sid).read detected
        now).reading.metadata).isSome) = detected := by
  cases detected <;> exact ⟨rfl, rfl⟩

/-! ## Claims about the MQTT gateway -/

/-- Claim C5: on a decoded envelope and reading, the gateway record
takes `sensor_type` from the trailing topic segment (the envelope
contributes only `device_id`), parses `value` with a 0.0 fallback, and
maps kind to unit by the fixed table; value `"24.10"` on topic
`sensors/edge-01/temperature` yields the POST body with
`sensor_type "temperature"`, `value 24.10`, `unit "°C"`. -/
theorem canonical_record_construction :
    (∀ (t : String) (m m' : Gateway.MqttMessage) (r : SensorReading),
        m.device_id = m'.device_id →
        Gateway.buildSensorData t m r = Gateway.buildSensorData t m' r) ∧
    (∀ (t : String) (m : Gateway.MqttMessage) (r : SensorReading),
        Gateway.parseRat r.value = none →
        (Gateway.buildSensorData t m r).value = 0) ∧
    (∀ (t : String) (m : Gateway.MqttMessage) (r : SensorReading),
        (Gateway.buildSensorData t m r).sensor_type = Gateway.topicSensorType t) ∧
    Gateway.buildSensorData "sensors/edge-01/temperature"
        Gateway.exEnvelope Gateway.exReading = tempRecord ∧
    (Gateway.buildSensorData "sensors/edge-01/humidity"
        Gateway.exEnvelope Gateway.exReading).unit = "%" ∧
    (Gateway.buildSensorData "sensors/edge-01/motion"
        Gateway.exEnvelope Gateway.exReading).unit = "bool" ∧
    (Gateway.buildSensorData "sensors/edge-01/lux"
        Gateway.exEnvelope Gateway.exReading).unit = "" := by
  refine ⟨?_, ?_, ?_, ?_, ?_, ?_, ?_⟩
  · intro t m m' r h
    simp only [Gateway.buildSensorData, h]
  · intro t m r h
    simp only [Gateway.buildSensorData, h, Option.getD_none]
  · intro t m r
    rfl
  · rfl
  · rfl
  · rfl
  · rfl

/-- Witness for C5: the parse-failure fallback at a concrete
non-numeric reading. -/
theorem canonical_record_construction_witness :
    (Gateway.buildSensorData "sensors/edge-01/temperature" Gateway.exEnvelope
      { Gateway.exReading with value := "not-a-number" }).value = 0 :=
  canonical_record_construction.2.1 "sensors/edge-01/temperature"
    Gateway.exEnvelope { Gateway.exReading with value := "not-a-number" }
    (by decide)

/-- Claim C6: a payload that is invalid UTF-8, or whose text does not
decode as an `MqttMessage` envelope, produces zero HTTP forward calls;
the handler is a total function (no branch panics) and the receive
loop continues. -/
theorem malformed_payload_no_forward
    (utf8Dec : List ℕ → Option String)
    (msgDec : String → Option Gateway.MqttMessage)
    (readingDec : Json → Option SensorReading)
    (topic : String) (payload : List ℕ)
    (h : utf8Dec payload = none ∨
         ∀ s, utf8Dec payload = some s → msgDec s = none) :
    Gateway.handle_message utf8Dec msgDec readingDec topic payload = [] := by
  rcases h with h | h
  · simp [Gateway.handle_message, h]
  · cases hu : utf8Dec payload with
    | none => simp [Gateway.handle_message, hu]
    | some s => simp [Gateway.handle_message, hu, h s hu]

/-- Witness for C6: a concrete non-UTF-8 payload and a concrete
decoder pair. -/
theorem malformed_payload_no_forward_witness :
    Gateway.handle_message (fun _ => none) (fun _ => none) (fun _ => none)
      "sensors/edge-01/temperature" [255] = [] :=
  malformed_payload_no_forward (fun _ => none) (fun _ => none) (fun _ => none)
    "sensors/edge-01/temperature" [255] (Or.inl rfl)

/-! ## Claims about the API server sensor routes -/

namespace ApiServer

/-- Command `SET EX` leaves exactly one entry at the written key. -/
theorem countKey_setEx_self (st : RedisState) (k : String) (v : Json)
    (ttl : ℕ) : countKey (setEx st k v ttl) k = 1 := by
  unfold countKey setEx
  rw [List.countP_cons]
  simp only [decide_eq_true_eq]
  rw [List.countP_filter]
  simp

/-- Command `SET EX` does not increase the entry count at any other key. -/
theorem countKey_setEx_le (st : RedisState) (k k' : String) (v : Json)
    (ttl : ℕ) (h : k' ≠ k) :
    countKey (setEx st k v ttl) k' ≤ countKey st k' := by
  have h' : ¬ (k = k') := fun e => h e.symm
  unfold countKey setEx
  rw [List.countP_cons]
  simp only [h', decide_eq_true_eq, if_false, Nat.add_zero]
  exact List.Sublist.countP_le _ (List.filter_sublist st)

/-- Command `SET EX` makes the written value, with its TTL, the live entry at
the key. -/
theorem lookupKey_setEx_self (st : RedisState) (k : String) (v : Json)
    (ttl : ℕ) : lookupKey (setEx st k v ttl) k = some (v, ttl) := by
  unfold lookupKey setEx
  rw [List.find?_cons_of_pos]
  · rfl
  · simp

/-- Any sequence of nominal writes preserves the at-most-one-entry-per-
key invariant. -/
theorem countKey_foldl_le (writes : List SensorData) :
    ∀ (st : RedisState), (∀ k, countKey st k ≤ 1) →
      ∀ k, countKey (writes.foldl writeRemote st) k ≤ 1 := by
  induction writes with
  | nil => intro st h k; exact h k
  | cons d ds ih =>
    intro st h k
    rw [List.foldl_cons]
    refine ih _ ?_ k
    intro k'
    by_cases hk : k' = sensorKey d
    · subst hk
      exact le_of_eq (countKey_setEx_self st _ _ 3600)
    · exact le_trans (countKey_setEx_le st _ k' _ 3600 hk) (h k')

end ApiServer

/-- Claim C7: a remote-backend write stores exactly one entry at the
key `(device_id, sensor_type)` with TTL 3600 from write time; a second
write at the same key replaces the value (still exactly one entry);
and after any sequence of writes at most one entry exists per key.
The nominal handler run returns `Ok(OK)` and performs exactly this
store update. -/
theorem remote_write_single_entry_with_ttl
    (st : ApiServer.RedisState) (data : SensorData) (v' : ℚ)
    (u' ts' : String) (md' : Option Json) :
    ApiServer.lookupKey (ApiServer.writeRemote st data)
        (ApiServer.sensorKey data) = some (data.toJsonServer, 3600) ∧
    ApiServer.countKey (ApiServer.writeRemote st data)
        (ApiServer.sensorKey data) = 1 ∧
    ApiServer.lookupKey
        (ApiServer.writeRemote (ApiServer.writeRemote st data)
          { data with value := v', unit := u', timestamp := ts', metadata := md' })
        (ApiServer.sensorKey data)
      = some (SensorData.toJsonServer
          { data with value := v', unit := u', timestamp := ts', metadata := md' },
          3600) ∧
    ApiServer.countKey
        (ApiServer.writeRemote (ApiServer.writeRemote st data)
          { data with value := v', unit := u', timestamp := ts', metadata := md' })
        (ApiServer.sensorKey data) = 1 ∧
    ApiServer.add_sensor_data (some st) (fun d => .ok d.toJsonServer) false data
      = (.ok .ok, some (ApiServer.writeRemote st data)) ∧
    ∀ (writes : List SensorData) (k : String),
      ApiServer.countKey (writes.foldl ApiServer.writeRemote []) k ≤ 1 := by
  have hkey : ApiServer.sensorKey
      { data with value := v', unit := u', timestamp := ts', metadata := md' }
      = ApiServer.sensorKey data := by
    cases data; rfl
  refine ⟨ApiServer.lookupKey_setEx_self st _ _ 3600,
          ApiServer.countKey_setEx_self st _ _ 3600, ?_, ?_, rfl, ?_⟩
  · show ApiServer.lookupKey (ApiServer.setEx _ _ _ _) _ = _
    rw [hkey]
    exact ApiServer.lookupKey_setEx_self _ _ _ 3600
  · show ApiServer.countKey (ApiServer.setEx _ _ _ _) _ = 1
    rw [hkey]
    exact ApiServer.countKey_setEx_self _ _ _ 3600
  · intro writes k
    refine ApiServer.countKey_foldl_le writes [] ?_ k
    intro k'
    simp [ApiServer.countKey]

namespace ApiServer

/-- The fetch loop over all-successful fetches collects exactly the
decodable values, in key order. -/
theorem fetchLoop_all_ok (vals : String → Json) :
    ∀ (keys : List String),
      fetchLoop (fun k => .ok (vals k)) keys
        = .ok (keys.filterMap (fun k => SensorData.fromJson (vals k))) := by
  intro keys
  induction keys with
  | nil => rfl
  | cons a as ih =>
    cases h : SensorData.fromJson (vals a) <;>
      simp [fetchLoop, ih, h, List.filterMap_cons]

end ApiServer

/-- Claim C10: against the remote backend, an entry whose value fetches
successfully but does not deserialize as a canonical record is silently
skipped: the listing succeeds and returns exactly the decodable
entries, so an undecodable entry never causes an error response and
never appears in the returned array. -/
theorem undecodable_values_silently_omitted
    (keys : List String) (vals : String → Json) :
    ApiServer.get_all_sensors_from_redis (.ok keys) (fun k => .ok (vals k))
      = .ok (keys.filterMap (fun k => SensorData.fromJson (vals k))) ∧
    ApiServer.list_sensors true (.ok keys) (fun k => .ok (vals k))
      = keys.filterMap (fun k => SensorData.fromJson (vals k)) := by
  have h := ApiServer.fetchLoop_all_ok vals keys
  refine ⟨h, ?_⟩
  simp [ApiServer.list_sensors, ApiServer.get_all_sensors_from_redis, h]

/-- Claim C1 (code bug): with Redis absent at startup there is no
in-memory fallback in the sensor routes — both writes are rejected
with 503 and nothing is stored, and `list()` returns the empty array
(0 entries, not 2), contradicting the doc comment of the module itself and the
in-memory-backend scenario of the spec. -/
theorem no_redis_no_memory_fallback :
    ApiServer.add_sensor_data none (fun d => .ok d.toJsonServer) false tempRecord
      = (.error .serviceUnavailable, none) ∧
    ApiServer.add_sensor_data none (fun d => .ok d.toJsonServer) false humRecord
      = (.error .serviceUnavailable, none) ∧
    ApiServer.list_sensors false (.ok []) (fun _ => .error "unreachable") = [] ∧
    (ApiServer.list_sensors false (.ok []) (fun _ => .error "unreachable")).length
      ≠ 2 :=
  ⟨rfl, rfl, rfl, by decide⟩

/-- Counterexample to claim C2: a serialization failure makes
`add_sensor_data` return 400 (Bad Request), not the claimed 500. -/
theorem serialization_failure_returns_400 :
    ApiServer.add_sensor_data (some []) (fun _ => .error "serialization failed")
        false tempRecord
      = (.error .badRequest, some []) ∧
    ApiServer.StatusCode.badRequest ≠ ApiServer.StatusCode.internalServerError :=
  ⟨rfl, by decide⟩

/-- Claim C2 as amended: with the remote backend present, the write
handler returns 400 when serialization of the record fails and 500
when the remote write fails (succeeding with 200 otherwise), and 503
exactly when the backend was absent at startup. -/
theorem write_status_per_outcome
    (st : ApiServer.RedisState) (ser : SensorData → Except String Json)
    (writeFails : Bool) (data : SensorData) :
    (∀ e, ser data = .error e →
      (ApiServer.add_sensor_data (some st) ser writeFails data).1
        = .error .badRequest) ∧
    (∀ j, ser data = .ok j →
      (ApiServer.add_sensor_data (some st) ser true data).1
        = .error .internalServerError) ∧
    (∀ j, ser data = .ok j →
      (ApiServer.add_sensor_data (some st) ser false data).1 = .ok .ok) ∧
    (ApiServer.add_sensor_data none ser writeFails data).1
      = .error .serviceUnavailable := by
  refine ⟨?_, ?_, ?_, rfl⟩
  · intro e he; simp [ApiServer.add_sensor_data, he]
  · intro j hj; simp [ApiServer.add_sensor_data, hj]
  · intro j hj; simp [ApiServer.add_sensor_data, hj]

/-- Witness for the amended C2: a concrete failing serializer yields
400. -/
theorem write_status_per_outcome_witness :
    (ApiServer.add_sensor_data (some []) (fun _ => .error "serde error")
        false tempRecord).1 = .error .badRequest :=
  (write_status_per_outcome [] (fun _ => .error "serde error")
    false tempRecord).1 "serde error" rfl

/-- Counterexample to claim C3: with two stored keys where the first
fetch succeeds (and decodes) but the second fetch fails, the whole
remote listing aborts with the error and the handler returns the empty
array — the failing key is not skipped and the remaining entry is not
returned. -/
theorem fetch_failure_aborts_listing :
    ApiServer.get_all_sensors_from_redis
        (.ok ["sensor:edge-01:temperature", "sensor:edge-01:humidity"]) exFetch
      = .error "io error" ∧
    exFetch "sensor:edge-01:temperature" = .ok tempRecord.toJsonServer ∧
    SensorData.fromJson tempRecord.toJsonServer = some tempRecord ∧
    ApiServer.list_sensors true
        (.ok ["sensor:edge-01:temperature", "sensor:edge-01:humidity"]) exFetch
      = [] ∧
    ApiServer.list_sensors true
        (.ok ["sensor:edge-01:temperature", "sensor:edge-01:humidity"]) exFetch
      ≠ [tempRecord] := by
  refine ⟨rfl, rfl, rfl, rfl, ?_⟩
  intro h
  have h2 : ([] : List SensorData) = [tempRecord] := h
  exact List.noConfusion h2

namespace ApiServer

/-- A failing fetch for any stored key aborts the whole fetch loop. -/
theorem fetchLoop_error_of_mem :
    ∀ (keys : List String) (fetch : String → Except String Json)
      (k e : String), k ∈ keys → fetch k = .error e →
      ∃ e', fetchLoop fetch keys = .error e' := by
  intro keys fetch k e
  induction keys with
  | nil => intro h _; simp at h
  | cons a as ih =>
    intro hmem hfail
    cases hm : fetch a with
    | error e2 => exact ⟨e2, by simp [fetchLoop, hm]⟩
    | ok j =>
      rcases List.mem_cons.mp hmem with heq | hmem2
      · subst heq
        rw [hm] at hfail
        exact Except.noConfusion hfail
      · obtain ⟨e', he'⟩ := ih hmem2 hfail
        exact ⟨e', by simp [fetchLoop, hm, he']⟩

end ApiServer

/-- Claim C3 as amended: when the fetch of one stored key fails, the
whole remote listing fails (only deserialization failures are
skipped), and `list_sensors` then returns the empty array rather than
the remaining entries. -/
theorem fetch_failure_fatal_to_listing
    (keys : List String) (fetch : String → Except String Json)
    (k e : String) (hmem : k ∈ keys) (hfail : fetch k = .error e) :
    (∃ e', ApiServer.fetchLoop fetch keys = .error e') ∧
    ApiServer.list_sensors true (.ok keys) fetch = [] := by
  obtain ⟨e', he'⟩ := ApiServer.fetchLoop_error_of_mem keys fetch k e hmem hfail
  refine ⟨⟨e', he'⟩, ?_⟩
  simp [ApiServer.list_sensors, ApiServer.get_all_sensors_from_redis, he']

/-- Witness for the amended C3: the concrete two-key scenario with one
failing fetch. -/
theorem fetch_failure_fatal_to_listing_witness :
    (∃ e', ApiServer.fetchLoop exFetch
        ["sensor:edge-01:temperature", "sensor:edge-01:humidity"]
      = .error e') ∧
    ApiServer.list_sensors true
      (.ok ["sensor:edge-01:temperature", "sensor:edge-01:humidity"]) exFetch
      = [] :=
  fetch_failure_fatal_to_listing
    ["sensor:edge-01:temperature", "sensor:edge-01:humidity"] exFetch
    "sensor:edge-01:humidity" "io error" (by decide) rfl

/-! ## Claims about the wire JSON round trip -/

/-- Counterexample to claim C9: a record whose metadata is the JSON
`null` value serializes (under the serializer of either struct) to a body
that deserializes back with metadata `None` — not the original
record. -/
theorem metadata_null_not_roundtripped :
    SensorData.fromJson nullMetaRecord.toJsonServer = some tempRecord ∧
    SensorData.fromJson nullMetaRecord.toJsonGateway = some tempRecord ∧
    SensorData.fromJson nullMetaRecord.toJsonServer ≠ some nullMetaRecord ∧
    nullMetaRecord ≠ tempRecord := by
  refine ⟨rfl, rfl, ?_, ?_⟩
  · intro h
    have h2 : (some tempRecord : Option SensorData) = some nullMetaRecord := h
    have h3 := congrArg SensorData.metadata (Option.some.inj h2)
    simp [tempRecord, nullMetaRecord] at h3
  · intro h
    have h3 := congrArg SensorData.metadata h
    simp [tempRecord, nullMetaRecord] at h3

/-- Claim C9 as amended: for every canonical record whose metadata is
not the JSON `null` value — in particular whenever the optional
metadata is absent — serializing to wire JSON (under either the
gateway or the api-server serde attributes) and deserializing back
yields the original record. -/
theorem roundtrip_modulo_null_metadata (r : SensorData)
    (h : r.metadata ≠ some Json.null) :
    SensorData.fromJson r.toJsonGateway = some r ∧
    SensorData.fromJson r.toJsonServer = some r := by
  obtain ⟨d, st, v, u, ts, md⟩ := r
  cases md with
  | none => exact ⟨rfl, rfl⟩
  | some m =>
    cases m with
    | null => exact absurd rfl h
    | jbool b => exact ⟨rfl, rfl⟩
    | jnum q => exact ⟨rfl, rfl⟩
    | jstr s => exact ⟨rfl, rfl⟩
    | jarr xs => exact ⟨rfl, rfl⟩
    | jobj fs => exact ⟨rfl, rfl⟩

/-- Witness for the amended C9: the sample record with absent
metadata round-trips under both serializers. -/
theorem roundtrip_modulo_null_metadata_witness :
    SensorData.fromJson tempRecord.toJsonGateway = some tempRecord ∧
    SensorData.fromJson tempRecord.toJsonServer = some tempRecord :=
  roundtrip_modulo_null_metadata tempRecord (fun h => Option.noConfusion h)

end RustyFlow
